import Mathlib

/-
  Verification of the meshcore-bridge command loop
  (scripts/meshcore-bridge.py).

  The bridge is a long-lived process reading JSON command lines from stdin
  and writing one JSON response line per request to stdout.  We embed the
  data model (requests, responses, bridge state), the external meshcore
  library as an oracle of call outcomes (a Device), the eleven command
  handlers with the device calls they issue, and the read loop as a
  function over a list of input lines.

  Conventions of the embedding:
  - Python dictionaries read with .get are structures of Option fields;
    .get with a default becomes Option.getD.
  - Python float coordinates are rationals; Python truthiness of a
    number-or-None value is modelled by pyOr (0.0 and None are falsy).
  - awaited library calls are oracle fields of type Except String _;
    an .error outcome models the call raising an exception, which the
    dispatcher catch-all converts into an error response.
  - The side effects of library calls are recorded as a DevCall trace.
-/

namespace Bridge

/-- Transport handle: SerialConnection(port, baudrate) or
TCPConnection(host, port). -/
inductive Connection where
  | serial (port : String) (baud : Nat)
  | tcp (host : String) (port : Nat)
deriving DecidableEq

/-- Mutable attributes of the MeshCoreBridge object: connection handle,
meshcore handle (modelled by the connection it wraps), connected flag,
running flag. -/
structure BridgeState where
  connection : Option Connection
  meshcore : Option Connection
  connected : Bool
  running : Bool
deriving DecidableEq

/-- State right after MeshCoreBridge.__init__. -/
def initState : BridgeState :=
  { connection := none, meshcore := none, connected := false, running := true }

/-- The incoming command dictionary.  Fields are the keys the handlers
read; absent-or-null JSON values are none.  A request dictionary may
carry keys the code never reads (for instance a timeout), so those are
representable too. -/
structure Request where
  id : Option String := none
  cmd : Option String := none
  type : Option String := none
  port : Option String := none
  baud : Option Nat := none
  host : Option String := none
  tcp_port : Option Nat := none
  text : Option String := none
  «to» : Option String := none
  public_key : Option String := none
  password : Option String := none
  name : Option String := none
  freq : Option ℚ := none
  bw : Option ℚ := none
  sf : Option Nat := none
  cr : Option Nat := none
  timeout : Option Nat := none
deriving DecidableEq

/-- Raw self_info dictionary as reported by the meshcore library. -/
structure SelfInfoRaw where
  adv_lat : Option ℚ := none
  latitude : Option ℚ := none
  adv_lon : Option ℚ := none
  longitude : Option ℚ := none
  public_key : Option String := none
  name : Option String := none
  adv_type : Option Int := none
  tx_power : Option Int := none
  max_tx_power : Option Int := none
  radio_freq : Option ℚ := none
  radio_bw : Option ℚ := none
  radio_sf : Option Int := none
  radio_cr : Option Int := none
deriving DecidableEq

/-- The empty dictionary used when self_info is absent. -/
def emptyInfo : SelfInfoRaw := {}

/-- Raw contact dictionary as stored in meshcore.contacts. -/
structure ContactRaw where
  adv_lat : Option ℚ := none
  latitude : Option ℚ := none
  lat : Option ℚ := none
  adv_lon : Option ℚ := none
  longitude : Option ℚ := none
  lon : Option ℚ := none
  adv_name : Option String := none
  name : Option String := none
  rssi : Option Int := none
  snr : Option Int := none
  type : Option Int := none
deriving DecidableEq

/-- Raw status dictionary returned by req_status_sync; also the shape of
the data the get_status handler copies out of it. -/
structure StatusRaw where
  bat_mv : Option Int := none
  up_secs : Option Int := none
  tx_power : Option Int := none
  radio_freq : Option ℚ := none
  radio_bw : Option ℚ := none
  radio_sf : Option Int := none
  radio_cr : Option Int := none
deriving DecidableEq

/-- Serialized self-identity record (_serialize_self_info result). -/
structure SelfInfoSer where
  public_key : String
  name : String
  adv_type : Option Int
  tx_power : Option Int
  max_tx_power : Option Int
  radio_freq : Option ℚ
  radio_bw : Option ℚ
  radio_sf : Option Int
  radio_cr : Option Int
  latitude : Option ℚ
  longitude : Option ℚ
deriving DecidableEq

/-- Serialized contact record built by cmd_get_contacts. -/
structure ContactSer where
  public_key : String
  adv_name : String
  name : String
  rssi : Option Int
  snr : Option Int
  adv_type : Option Int
  latitude : Option ℚ
  longitude : Option ℚ
deriving DecidableEq

/-- Python x or y on number-or-None values: None and 0.0 are falsy. -/
def pyOr (x y : Option ℚ) : Option ℚ :=
  match x with
  | some v => if v = 0 then y else some v
  | none => y

/-- The zero-coordinate filter: if lat == 0.0 then lat = None. -/
def filterZero (x : Option ℚ) : Option ℚ :=
  if x = some 0 then none else x

/-- _serialize_self_info. -/
def serialize_self_info (info : SelfInfoRaw) : SelfInfoSer :=
  { public_key := info.public_key.getD ""
    name := info.name.getD ""
    adv_type := info.adv_type
    tx_power := info.tx_power
    max_tx_power := info.max_tx_power
    radio_freq := info.radio_freq
    radio_bw := info.radio_bw
    radio_sf := info.radio_sf
    radio_cr := info.radio_cr
    latitude := filterZero (pyOr info.adv_lat info.latitude)
    longitude := filterZero (pyOr info.adv_lon info.longitude) }

/-- The per-contact record built inside the cmd_get_contacts loop. -/
def serializeContact (key : String) (c : ContactRaw) : ContactSer :=
  { public_key := key
    adv_name := c.adv_name.getD ""
    name := c.name.getD ""
    rssi := c.rssi
    snr := c.snr
    adv_type := c.type
    latitude := filterZero (pyOr (pyOr c.adv_lat c.latitude) c.lat)
    longitude := filterZero (pyOr (pyOr c.adv_lon c.longitude) c.lon) }

/-- One awaited call into the meshcore library, with the arguments the
bridge passed.  Handlers record the calls they issue, in order. -/
inductive DevCall where
  | connect
  | disconnect
  | get_contacts
  | send_msg (to_key : String) (text : String)
  | send_chan_msg (channel : Nat) (text : String)
  | send_advert
  | send_login (public_key : String) (password : String)
  | req_status (public_key : String) (timeout : Nat)
  | set_name (name : String)
  | set_radio (freq : Option ℚ) (bw : Option ℚ) (sf : Option Nat) (cr : Option Nat)
deriving DecidableEq

/-- Oracle for the external meshcore library: module availability flags
and the outcome of each awaited call.  An .error outcome models the call
raising an exception with that message; for meshcore.connect, .ok none
models the handshake returning None (no device response). -/
structure Device where
  meshcore_available : Bool
  tcp_available : Bool
  connect_res : Except String (Option Unit)
  self_info : Option SelfInfoRaw
  contacts_res : Except String Unit
  contacts : List (String × ContactRaw)
  send_msg_res : Except String Unit
  send_chan_msg_res : Except String Unit
  send_advert_res : Except String Unit
  send_login_res : Except String Unit
  status_res : String → Nat → Except String (Option StatusRaw)
  set_name_res : Except String Unit
  set_radio_res : Except String Unit

/-- The data payload of a success response, one shape per handler. -/
inductive RespData where
  | str (s : String)
  | connectData (connected : Bool) (info : SelfInfoSer)
  | selfInfo (info : SelfInfoSer)
  | contacts (cs : List ContactSer)
  | sent (b : Bool)
  | loggedIn (b : Bool)
  | status (st : StatusRaw)
  | nameData (n : String)
  | radioSet (b : Bool)
  | shutdownAck (b : Bool)
  | connectedFlag (b : Bool)
deriving DecidableEq

/-- One response line: correlation id, success flag, optional error
string, optional data payload. -/
structure Response where
  id : String
  success : Bool
  error : Option String := none
  data : Option RespData := none
deriving DecidableEq

/-- Result of a handler body before the dispatcher catch-all: the bridge
state at return or at the point an exception was raised, the device calls
issued, and either a response or the raised exception message. -/
structure RawResult where
  state : BridgeState
  calls : List DevCall
  out : Except String Response

/-- Result of handle_command: new state, device-call trace, response. -/
structure CmdResult where
  state : BridgeState
  calls : List DevCall
  resp : Response
deriving DecidableEq

/-- The Not connected error response produced by every guarded handler. -/
def notConnectedResp (cmd_id : String) : Response :=
  { id := cmd_id, success := false, error := some "Not connected" }

/-- State and device calls of cmd_disconnect: best-effort close of the
meshcore handle (errors swallowed), then clear all three fields. -/
def disconnectState (s : BridgeState) : BridgeState × List DevCall :=
  ({ connection := none, meshcore := none, connected := false, running := s.running },
   if s.meshcore.isSome then [DevCall.disconnect] else [])

/-- cmd_disconnect: always succeeds with data connected:false. -/
def cmd_disconnect (s : BridgeState) (cmd_id : String) : RawResult :=
  { state := (disconnectState s).1
    calls := (disconnectState s).2
    out := .ok { id := cmd_id, success := true, data := some (.connectedFlag false) } }

/-- Error string of the connect handler when the library is missing. -/
def msgNoLib : String := "meshcore library not installed. Run: pip install meshcore"

/-- Error string of the connect handler when TCPConnection is missing. -/
def msgNoTcp : String := "TCP not supported - meshcore TCPConnection not available"

/-- Error string of the connect handler when the handshake returns None. -/
def msgNoResponse : String :=
  "No response from device â€” check connection and ensure it is a Companion node (not a Repeater)"

/-- Tail of cmd_connect after the transport handle is chosen: store the
handles, await meshcore.connect(), and dispatch on its outcome. -/
def connectWith (d : Device) (s : BridgeState) (calls : List DevCall)
    (cmd_id : String) (conn : Connection) : RawResult :=
  match d.connect_res with
  | .error e =>
      { state := { s with connection := some conn, meshcore := some conn }
        calls := calls ++ [DevCall.connect]
        out := .error e }
  | .ok none =>
      { state := { s with connection := none, meshcore := none }
        calls := calls ++ [DevCall.connect]
        out := .ok { id := cmd_id, success := false, error := some msgNoResponse } }
  | .ok (some _) =>
      { state := { s with connection := some conn, meshcore := some conn, connected := true }
        calls := calls ++ [DevCall.connect]
        out := .ok { id := cmd_id, success := true,
                     data := some (.connectData true
                       (serialize_self_info (d.self_info.getD emptyInfo))) } }

/-- Transport selection of cmd_connect (after the implicit disconnect). -/
def connectType (d : Device) (s : BridgeState) (calls : List DevCall)
    (cmd_id : String) (req : Request) : RawResult :=
  if req.type.getD "serial" = "tcp" then
    if d.tcp_available = false then
      { state := s, calls := calls, out := .ok { id := cmd_id, success := false, error := some msgNoTcp } }
    else
      connectWith d s calls cmd_id
        (Connection.tcp (req.host.getD "localhost") (req.tcp_port.getD 4403))
  else
    connectWith d s calls cmd_id
      (Connection.serial (req.port.getD "/dev/ttyACM0") (req.baud.getD 115200))

/-- cmd_connect: availability check, implicit disconnect when already
connected, transport selection, handshake. -/
def cmd_connect (d : Device) (s : BridgeState) (cmd_id : String) (req : Request) : RawResult :=
  if d.meshcore_available = false then
    { state := s, calls := [], out := .ok { id := cmd_id, success := false, error := some msgNoLib } }
  else if s.connected then
    connectType d (disconnectState s).1 (disconnectState s).2 cmd_id req
  else
    connectType d s [] cmd_id req

/-- cmd_get_self_info: guarded; serializes the cached self_info. -/
def cmd_get_self_info (d : Device) (s : BridgeState) (cmd_id : String) : RawResult :=
  if s.connected = false ∨ s.meshcore = none then
    { state := s, calls := [], out := .ok (notConnectedResp cmd_id) }
  else
    { state := s, calls := []
      out := .ok { id := cmd_id, success := true,
                   data := some (.selfInfo (serialize_self_info (d.self_info.getD emptyInfo))) } }

/-- cmd_get_contacts: guarded; refreshes contacts on the device then
serializes every cached contact. -/
def cmd_get_contacts (d : Device) (s : BridgeState) (cmd_id : String) : RawResult :=
  if s.connected = false ∨ s.meshcore = none then
    { state := s, calls := [], out := .ok (notConnectedResp cmd_id) }
  else
    match d.contacts_res with
    | .error e => { state := s, calls := [DevCall.get_contacts], out := .error e }
    | .ok _ =>
        { state := s, calls := [DevCall.get_contacts]
          out := .ok { id := cmd_id, success := true,
                       data := some (.contacts (d.contacts.map
                         (fun kc => serializeContact kc.1 kc.2))) } }

/-- Channel branch of cmd_send_message: send_chan_msg(0, text). -/
def sendChan (d : Device) (s : BridgeState) (cmd_id : String) (text : String) : RawResult :=
  match d.send_chan_msg_res with
  | .error e => { state := s, calls := [DevCall.send_chan_msg 0 text], out := .error e }
  | .ok _ =>
      { state := s, calls := [DevCall.send_chan_msg 0 text]
        out := .ok { id := cmd_id, success := true, data := some (.sent true) } }

/-- cmd_send_message: guarded; a truthy to key (present and non-empty)
selects a direct send, otherwise the broadcast channel 0. -/
def cmd_send_message (d : Device) (s : BridgeState) (cmd_id : String) (req : Request) : RawResult :=
  if s.connected = false ∨ s.meshcore = none then
    { state := s, calls := [], out := .ok (notConnectedResp cmd_id) }
  else
    match req.«to» with
    | some k =>
        if k = "" then sendChan d s cmd_id (req.text.getD "")
        else
          match d.send_msg_res with
          | .error e => { state := s, calls := [DevCall.send_msg k (req.text.getD "")], out := .error e }
          | .ok _ =>
              { state := s, calls := [DevCall.send_msg k (req.text.getD "")]
                out := .ok { id := cmd_id, success := true, data := some (.sent true) } }
    | none => sendChan d s cmd_id (req.text.getD "")

/-- cmd_send_advert: guarded; fire-and-forget advertisement. -/
def cmd_send_advert (d : Device) (s : BridgeState) (cmd_id : String) : RawResult :=
  if s.connected = false ∨ s.meshcore = none then
    { state := s, calls := [], out := .ok (notConnectedResp cmd_id) }
  else
    match d.send_advert_res with
    | .error e => { state := s, calls := [DevCall.send_advert], out := .error e }
    | .ok _ =>
        { state := s, calls := [DevCall.send_advert]
          out := .ok { id := cmd_id, success := true, data := some (.sent true) } }

/-- cmd_login: guarded; sends credentials to the remote node. -/
def cmd_login (d : Device) (s : BridgeState) (cmd_id : String) (req : Request) : RawResult :=
  if s.connected = false ∨ s.meshcore = none then
    { state := s, calls := [], out := .ok (notConnectedResp cmd_id) }
  else
    match d.send_login_res with
    | .error e =>
        { state := s
          calls := [DevCall.send_login (req.public_key.getD "") (req.password.getD "")]
          out := .error e }
    | .ok _ =>
        { state := s
          calls := [DevCall.send_login (req.public_key.getD "") (req.password.getD "")]
          out := .ok { id := cmd_id, success := true, data := some (.loggedIn true) } }

/-- cmd_get_status: guarded; issues req_status_sync(public_key, timeout=10)
and reports No status received when the reply is falsy. -/
def cmd_get_status (d : Device) (s : BridgeState) (cmd_id : String) (req : Request) : RawResult :=
  if s.connected = false ∨ s.meshcore = none then
    { state := s, calls := [], out := .ok (notConnectedResp cmd_id) }
  else
    match d.status_res (req.public_key.getD "") 10 with
    | .error e =>
        { state := s, calls := [DevCall.req_status (req.public_key.getD "") 10], out := .error e }
    | .ok (some st) =>
        { state := s, calls := [DevCall.req_status (req.public_key.getD "") 10]
          out := .ok { id := cmd_id, success := true, data := some (.status st) } }
    | .ok none =>
        { state := s, calls := [DevCall.req_status (req.public_key.getD "") 10]
          out := .ok { id := cmd_id, success := false, error := some "No status received" } }

/-- cmd_set_name: guarded; pushes the name to the device. -/
def cmd_set_name (d : Device) (s : BridgeState) (cmd_id : String) (req : Request) : RawResult :=
  if s.connected = false ∨ s.meshcore = none then
    { state := s, calls := [], out := .ok (notConnectedResp cmd_id) }
  else
    match d.set_name_res with
    | .error e => { state := s, calls := [DevCall.set_name (req.name.getD "")], out := .error e }
    | .ok _ =>
        { state := s, calls := [DevCall.set_name (req.name.getD "")]
          out := .ok { id := cmd_id, success := true, data := some (.nameData (req.name.getD "")) } }

/-- cmd_set_radio: guarded; pushes the four radio parameters. -/
def cmd_set_radio (d : Device) (s : BridgeState) (cmd_id : String) (req : Request) : RawResult :=
  if s.connected = false ∨ s.meshcore = none then
    { state := s, calls := [], out := .ok (notConnectedResp cmd_id) }
  else
    match d.set_radio_res with
    | .error e =>
        { state := s, calls := [DevCall.set_radio req.freq req.bw req.sf req.cr], out := .error e }
    | .ok _ =>
        { state := s, calls := [DevCall.set_radio req.freq req.bw req.sf req.cr]
          out := .ok { id := cmd_id, success := true, data := some (.radioSet true) } }

/-- cmd_shutdown: clears the running flag, disconnects if connected
(discarding that inner response), acknowledges. -/
def cmd_shutdown (s : BridgeState) (cmd_id : String) : RawResult :=
  if s.connected then
    { state := (disconnectState { s with running := false }).1
      calls := (disconnectState { s with running := false }).2
      out := .ok { id := cmd_id, success := true, data := some (.shutdownAck true) } }
  else
    { state := { s with running := false }
      calls := []
      out := .ok { id := cmd_id, success := true, data := some (.shutdownAck true) } }

/-- The try-block body of handle_command: dispatch on the cmd string. -/
def dispatch (d : Device) (s : BridgeState) (cmd_id : String) (cmd : String)
    (req : Request) : RawResult :=
  if cmd = "connect" then cmd_connect d s cmd_id req
  else if cmd = "disconnect" then cmd_disconnect s cmd_id
  else if cmd = "get_self_info" then cmd_get_self_info d s cmd_id
  else if cmd = "get_contacts" then cmd_get_contacts d s cmd_id
  else if cmd = "send_message" then cmd_send_message d s cmd_id req
  else if cmd = "send_advert" then cmd_send_advert d s cmd_id
  else if cmd = "login" then cmd_login d s cmd_id req
  else if cmd = "get_status" then cmd_get_status d s cmd_id req
  else if cmd = "set_name" then cmd_set_name d s cmd_id req
  else if cmd = "set_radio" then cmd_set_radio d s cmd_id req
  else if cmd = "shutdown" then cmd_shutdown s cmd_id
  else if cmd = "ping" then
    { state := s, calls := [], out := .ok { id := cmd_id, success := true, data := some (.str "pong") } }
  else
    { state := s, calls := []
      out := .ok { id := cmd_id, success := false, error := some ("Unknown command: " ++ cmd) } }

/-- The except-all wrapper of handle_command: a raised exception becomes
an error response carrying its message. -/
def finishRaw (cmd_id : String) (r : RawResult) : CmdResult :=
  match r.out with
  | .ok resp => { state := r.state, calls := r.calls, resp := resp }
  | .error e => { state := r.state, calls := r.calls
                  resp := { id := cmd_id, success := false, error := some e } }

/-- handle_command: correlation id and command name extraction with their
defaults, then the guarded dispatch. -/
def handle_command (d : Device) (s : BridgeState) (req : Request) : CmdResult :=
  finishRaw (req.id.getD "unknown") (dispatch d s (req.id.getD "unknown") (req.cmd.getD "") req)

/-- One stdin line as seen by the loop body after readline: it strips to
empty (skipped), it fails json.loads (malformed, carrying the decode
error text), or it decodes to a request dictionary. -/
inductive Line where
  | empty
  | malformed (emsg : String)
  | valid (req : Request)
deriving DecidableEq

/-- The response printed on a JSONDecodeError. -/
def invalidJsonResp (emsg : String) : Response :=
  { id := "unknown", success := false, error := some ("Invalid JSON: " ++ emsg) }

/-- The while-running loop of MeshCoreBridge.run over a finite stdin:
returns the responses printed in order, the state at loop exit, and the
lines never read (empty when the loop stopped at end of input). -/
def loop (d : Device) : BridgeState → List Line → List Response × BridgeState × List Line
  | s, [] => ([], s, [])
  | s, l :: rest =>
    if s.running = false then ([], s, l :: rest)
    else
      match l with
      | .empty => loop d s rest
      | .malformed e =>
          ((invalidJsonResp e) :: (loop d s rest).1, (loop d s rest).2)
      | .valid req =>
          ((handle_command d s req).resp :: (loop d (handle_command d s req).state rest).1,
           (loop d (handle_command d s req).state rest).2)

/-- MeshCoreBridge.run after the loop: a final best-effort disconnect
when still connected (its response is not printed). -/
def run (d : Device) (s : BridgeState) (ls : List Line) : List Response × BridgeState × List Line :=
  ((loop d s ls).1,
   (if (loop d s ls).2.1.connected then (disconnectState (loop d s ls).2.1).1 else (loop d s ls).2.1),
   (loop d s ls).2.2)

/-- A concrete device oracle on which every call succeeds: handshake
replies, no contacts, no remote status replies. -/
def devA : Device :=
  { meshcore_available := true
    tcp_available := false
    connect_res := .ok (some ())
    self_info := none
    contacts_res := .ok ()
    contacts := []
    send_msg_res := .ok ()
    send_chan_msg_res := .ok ()
    send_advert_res := .ok ()
    send_login_res := .ok ()
    status_res := fun _ _ => .ok none
    set_name_res := .ok ()
    set_radio_res := .ok () }

/-- A concrete device oracle whose handshake returns None. -/
def devNoResp : Device := { devA with connect_res := .ok none }

/-- A concrete connected bridge state over a serial transport. -/
def stConn : BridgeState :=
  { connection := some (Connection.serial "/dev/ttyACM0" 115200)
    meshcore := some (Connection.serial "/dev/ttyACM0" 115200)
    connected := true
    running := true }

/-! Helper lemmas: every handler stamps the correlation id on its
response, every handler except shutdown preserves the running flag, and
the guarded handlers do not change the state at all. -/

theorem cmd_connect_okId (d : Device) (s : BridgeState) (i : String) (req : Request) :
    ∀ resp, (cmd_connect d s i req).out = .ok resp → resp.id = i := by
  unfold cmd_connect connectType connectWith disconnectState
  repeat' split
  all_goals intro resp h
  all_goals first | (injection h with h; subst h; rfl) | simp_all

theorem cmd_connect_running (d : Device) (s : BridgeState) (i : String) (req : Request) :
    (cmd_connect d s i req).state.running = s.running := by
  unfold cmd_connect connectType connectWith disconnectState
  repeat' split
  all_goals rfl

theorem cmd_disconnect_okId (s : BridgeState) (i : String) :
    ∀ resp, (cmd_disconnect s i).out = .ok resp → resp.id = i := by
  intro resp h
  injection h with h
  subst h
  rfl

theorem cmd_get_self_info_okId (d : Device) (s : BridgeState) (i : String) :
    ∀ resp, (cmd_get_self_info d s i).out = .ok resp → resp.id = i := by
  unfold cmd_get_self_info notConnectedResp
  repeat' split
  all_goals intro resp h
  all_goals first | (injection h with h; subst h; rfl) | simp_all

theorem cmd_get_self_info_state (d : Device) (s : BridgeState) (i : String) :
    (cmd_get_self_info d s i).state = s := by
  unfold cmd_get_self_info
  repeat' split
  all_goals rfl

theorem cmd_get_contacts_okId (d : Device) (s : BridgeState) (i : String) :
    ∀ resp, (cmd_get_contacts d s i).out = .ok resp → resp.id = i := by
  unfold cmd_get_contacts notConnectedResp
  repeat' split
  all_goals intro resp h
  all_goals first | (injection h with h; subst h; rfl) | simp_all

theorem cmd_get_contacts_state (d : Device) (s : BridgeState) (i : String) :
    (cmd_get_contacts d s i).state = s := by
  unfold cmd_get_contacts
  repeat' split
  all_goals rfl

theorem sendChan_okId (d : Device) (s : BridgeState) (i : String) (text : String) :
    ∀ resp, (sendChan d s i text).out = .ok resp → resp.id = i := by
  unfold sendChan
  repeat' split
  all_goals intro resp h
  all_goals first | (injection h with h; subst h; rfl) | simp_all

theorem sendChan_state (d : Device) (s : BridgeState) (i : String) (text : String) :
    (sendChan d s i text).state = s := by
  unfold sendChan
  repeat' split
  all_goals rfl

theorem cmd_send_message_okId (d : Device) (s : BridgeState) (i : String) (req : Request) :
    ∀ resp, (cmd_send_message d s i req).out = .ok resp → resp.id = i := by
  unfold cmd_send_message notConnectedResp
  repeat' split
  all_goals first
    | exact sendChan_okId d s i (req.text.getD "")
    | (intro resp h; first | (injection h with h; subst h; rfl) | simp_all)

theorem cmd_send_message_state (d : Device) (s : BridgeState) (i : String) (req : Request) :
    (cmd_send_message d s i req).state = s := by
  unfold cmd_send_message
  repeat' split
  all_goals first | exact sendChan_state d s i (req.text.getD "") | rfl

theorem cmd_send_advert_okId (d : Device) (s : BridgeState) (i : String) :
    ∀ resp, (cmd_send_advert d s i).out = .ok resp → resp.id = i := by
  unfold cmd_send_advert notConnectedResp
  repeat' split
  all_goals intro resp h
  all_goals first | (injection h with h; subst h; rfl) | simp_all

theorem cmd_send_advert_state (d : Device) (s : BridgeState) (i : String) :
    (cmd_send_advert d s i).state = s := by
  unfold cmd_send_advert
  repeat' split
  all_goals rfl

theorem cmd_login_okId (d : Device) (s : BridgeState) (i : String) (req : Request) :
    ∀ resp, (cmd_login d s i req).out = .ok resp → resp.id = i := by
  unfold cmd_login notConnectedResp
  repeat' split
  all_goals intro resp h
  all_goals first | (injection h with h; subst h; rfl) | simp_all

theorem cmd_login_state (d : Device) (s : BridgeState) (i : String) (req : Request) :
    (cmd_login d s i req).state = s := by
  unfold cmd_login
  repeat' split
  all_goals rfl

theorem cmd_get_status_okId (d : Device) (s : BridgeState) (i : String) (req : Request) :
    ∀ resp, (cmd_get_status d s i req).out = .ok resp → resp.id = i := by
  unfold cmd_get_status notConnectedResp
  repeat' split
  all_goals intro resp h
  all_goals first | (injection h with h; subst h; rfl) | simp_all

theorem cmd_get_status_state (d : Device) (s : BridgeState) (i : String) (req : Request) :
    (cmd_get_status d s i req).state = s := by
  unfold cmd_get_status
  repeat' split
  all_goals rfl

theorem cmd_set_name_okId (d : Device) (s : BridgeState) (i : String) (req : Request) :
    ∀ resp, (cmd_set_name d s i req).out = .ok resp → resp.id = i := by
  unfold cmd_set_name notConnectedResp
  repeat' split
  all_goals intro resp h
  all_goals first | (injection h with h; subst h; rfl) | simp_all

theorem cmd_set_name_state (d : Device) (s : BridgeState) (i : String) (req : Request) :
    (cmd_set_name d s i req).state = s := by
  unfold cmd_set_name
  repeat' split
  all_goals rfl

theorem cmd_set_radio_okId (d : Device) (s : BridgeState) (i : String) (req : Request) :
    ∀ resp, (cmd_set_radio d s i req).out = .ok resp → resp.id = i := by
  unfold cmd_set_radio notConnectedResp
  repeat' split
  all_goals intro resp h
  all_goals first | (injection h with h; subst h; rfl) | simp_all

theorem cmd_set_radio_state (d : Device) (s : BridgeState) (i : String) (req : Request) :
    (cmd_set_radio d s i req).state = s := by
  unfold cmd_set_radio
  repeat' split
  all_goals rfl

theorem cmd_shutdown_okId (s : BridgeState) (i : String) :
    ∀ resp, (cmd_shutdown s i).out = .ok resp → resp.id = i := by
  unfold cmd_shutdown disconnectState
  repeat' split
  all_goals intro resp h
  all_goals first | (injection h with h; subst h; rfl) | simp_all

theorem dispatch_okId (d : Device) (s : BridgeState) (i : String) (c : String) (req : Request) :
    ∀ resp, (dispatch d s i c req).out = .ok resp → resp.id = i := by
  intro resp h
  unfold dispatch at h
  by_cases h1 : c = "connect"
  · rw [if_pos h1] at h; exact cmd_connect_okId d s i req resp h
  rw [if_neg h1] at h
  by_cases h2 : c = "disconnect"
  · rw [if_pos h2] at h; exact cmd_disconnect_okId s i resp h
  rw [if_neg h2] at h
  by_cases h3 : c = "get_self_info"
  · rw [if_pos h3] at h; exact cmd_get_self_info_okId d s i resp h
  rw [if_neg h3] at h
  by_cases h4 : c = "get_contacts"
  · rw [if_pos h4] at h; exact cmd_get_contacts_okId d s i resp h
  rw [if_neg h4] at h
  by_cases h5 : c = "send_message"
  · rw [if_pos h5] at h; exact cmd_send_message_okId d s i req resp h
  rw [if_neg h5] at h
  by_cases h6 : c = "send_advert"
  · rw [if_pos h6] at h; exact cmd_send_advert_okId d s i resp h
  rw [if_neg h6] at h
  by_cases h7 : c = "login"
  · rw [if_pos h7] at h; exact cmd_login_okId d s i req resp h
  rw [if_neg h7] at h
  by_cases h8 : c = "get_status"
  · rw [if_pos h8] at h; exact cmd_get_status_okId d s i req resp h
  rw [if_neg h8] at h
  by_cases h9 : c = "set_name"
  · rw [if_pos h9] at h; exact cmd_set_name_okId d s i req resp h
  rw [if_neg h9] at h
  by_cases h10 : c = "set_radio"
  · rw [if_pos h10] at h; exact cmd_set_radio_okId d s i req resp h
  rw [if_neg h10] at h
  by_cases h11 : c = "shutdown"
  · rw [if_pos h11] at h; exact cmd_shutdown_okId s i resp h
  rw [if_neg h11] at h
  by_cases h12 : c = "ping"
  · rw [if_pos h12] at h; injection h with h; subst h; rfl
  rw [if_neg h12] at h
  injection h with h; subst h; rfl

/-- Every response of handle_command carries the correlation id of its
request, defaulting to unknown when the request has no id field. -/
theorem handle_command_id (d : Device) (s : BridgeState) (req : Request) :
    (handle_command d s req).resp.id = req.id.getD "unknown" := by
  unfold handle_command finishRaw
  cases hr : (dispatch d s (req.id.getD "unknown") (req.cmd.getD "") req).out with
  | ok resp => simpa [hr] using dispatch_okId d s _ _ req resp hr
  | error e => simp [hr]

/-- Every handler except shutdown leaves the running flag unchanged. -/
theorem dispatch_running (d : Device) (s : BridgeState) (i : String) (c : String)
    (req : Request) (hc : c ≠ "shutdown") :
    (dispatch d s i c req).state.running = s.running := by
  unfold dispatch
  by_cases h1 : c = "connect"
  · rw [if_pos h1]; exact cmd_connect_running d s i req
  rw [if_neg h1]
  by_cases h2 : c = "disconnect"
  · rw [if_pos h2]; rfl
  rw [if_neg h2]
  by_cases h3 : c = "get_self_info"
  · rw [if_pos h3, cmd_get_self_info_state]
  rw [if_neg h3]
  by_cases h4 : c = "get_contacts"
  · rw [if_pos h4, cmd_get_contacts_state]
  rw [if_neg h4]
  by_cases h5 : c = "send_message"
  · rw [if_pos h5, cmd_send_message_state]
  rw [if_neg h5]
  by_cases h6 : c = "send_advert"
  · rw [if_pos h6, cmd_send_advert_state]
  rw [if_neg h6]
  by_cases h7 : c = "login"
  · rw [if_pos h7, cmd_login_state]
  rw [if_neg h7]
  by_cases h8 : c = "get_status"
  · rw [if_pos h8, cmd_get_status_state]
  rw [if_neg h8]
  by_cases h9 : c = "set_name"
  · rw [if_pos h9, cmd_set_name_state]
  rw [if_neg h9]
  by_cases h10 : c = "set_radio"
  · rw [if_pos h10, cmd_set_radio_state]
  rw [if_neg h10]
  by_cases h11 : c = "shutdown"
  · exact absurd h11 hc
  rw [if_neg h11]
  by_cases h12 : c = "ping"
  · rw [if_pos h12]
  rw [if_neg h12]

theorem handle_command_running (d : Device) (s : BridgeState) (req : Request)
    (h : req.cmd ≠ some "shutdown") :
    (handle_command d s req).state.running = s.running := by
  have hc : req.cmd.getD "" ≠ "shutdown" := by
    cases hq : req.cmd <;> simp_all
  unfold handle_command finishRaw
  cases hr : (dispatch d s (req.id.getD "unknown") (req.cmd.getD "") req).out <;>
    simpa [hr] using dispatch_running d s _ _ req hc

/-- The bridge-state invariant: whenever the connected flag is set, both
the meshcore handle and the connection handle are present. -/
def StateInv (s : BridgeState) : Prop :=
  s.connected = true → s.meshcore.isSome = true ∧ s.connection.isSome = true

instance (s : BridgeState) : Decidable (StateInv s) := by
  unfold StateInv
  infer_instance

theorem cmd_connect_inv (d : Device) (s : BridgeState) (i : String) (req : Request)
    (h : StateInv s) : StateInv (cmd_connect d s i req).state := by
  unfold cmd_connect connectType connectWith disconnectState
  repeat' split
  all_goals simp_all [StateInv]

theorem cmd_shutdown_inv (s : BridgeState) (i : String) :
    StateInv (cmd_shutdown s i).state := by
  unfold cmd_shutdown disconnectState
  repeat' split
  all_goals simp_all [StateInv]

theorem dispatch_inv (d : Device) (s : BridgeState) (i : String) (c : String)
    (req : Request) (h : StateInv s) :
    StateInv (dispatch d s i c req).state := by
  unfold dispatch
  by_cases h1 : c = "connect"
  · rw [if_pos h1]; exact cmd_connect_inv d s i req h
  rw [if_neg h1]
  by_cases h2 : c = "disconnect"
  · rw [if_pos h2]; intro hc; simp [cmd_disconnect, disconnectState] at hc
  rw [if_neg h2]
  by_cases h3 : c = "get_self_info"
  · rw [if_pos h3, cmd_get_self_info_state]; exact h
  rw [if_neg h3]
  by_cases h4 : c = "get_contacts"
  · rw [if_pos h4, cmd_get_contacts_state]; exact h
  rw [if_neg h4]
  by_cases h5 : c = "send_message"
  · rw [if_pos h5, cmd_send_message_state]; exact h
  rw [if_neg h5]
  by_cases h6 : c = "send_advert"
  · rw [if_pos h6, cmd_send_advert_state]; exact h
  rw [if_neg h6]
  by_cases h7 : c = "login"
  · rw [if_pos h7, cmd_login_state]; exact h
  rw [if_neg h7]
  by_cases h8 : c = "get_status"
  · rw [if_pos h8, cmd_get_status_state]; exact h
  rw [if_neg h8]
  by_cases h9 : c = "set_name"
  · rw [if_pos h9, cmd_set_name_state]; exact h
  rw [if_neg h9]
  by_cases h10 : c = "set_radio"
  · rw [if_pos h10, cmd_set_radio_state]; exact h
  rw [if_neg h10]
  by_cases h11 : c = "shutdown"
  · rw [if_pos h11]; exact cmd_shutdown_inv s i
  rw [if_neg h11]
  by_cases h12 : c = "ping"
  · rw [if_pos h12]; exact h
  rw [if_neg h12]; exact h

/-- While the running flag is down the loop reads nothing and prints
nothing. -/
theorem loop_not_running (d : Device) (s : BridgeState) (ls : List Line)
    (h : s.running = false) : loop d s ls = ([], s, ls) := by
  cases ls with
  | nil => rfl
  | cons l rest => simp [loop, h]

/-- The state of finishRaw is the state the handler body left behind. -/
theorem finishRaw_state (i : String) (r : RawResult) : (finishRaw i r).state = r.state := by
  unfold finishRaw
  split <;> rfl

/-- The calls of finishRaw are the calls the handler body issued. -/
theorem finishRaw_calls (i : String) (r : RawResult) : (finishRaw i r).calls = r.calls := by
  unfold finishRaw
  split <;> rfl

/-! Concrete fixtures used by witnesses and counterexamples. -/

/-- A shutdown request with id 1. -/
def reqShutdown : Request := { id := some "1", cmd := some "shutdown" }

/-- A ping request with id 2. -/
def reqPing2 : Request := { id := some "2", cmd := some "ping" }

/-- A get_self_info request with id 3. -/
def reqSelfInfo3 : Request := { id := some "3", cmd := some "get_self_info" }

/-- A disconnect request with id 4. -/
def reqDisc4 : Request := { id := some "4", cmd := some "disconnect" }

/-- A send_message request whose to key is present but empty. -/
def reqEmptyTo : Request :=
  { id := some "5", cmd := some "send_message", text := some "hi", «to» := some "" }

/-- A send_message request with a non-empty destination key. -/
def reqToBob : Request :=
  { id := some "6", cmd := some "send_message", text := some "yo", «to» := some "bob" }

/-- A serial connect request with id 7. -/
def reqConnect7 : Request := { id := some "7", cmd := some "connect" }

/-- A get_status request carrying an extra timeout parameter of 99. -/
def reqStatus99 : Request :=
  { id := some "8", cmd := some "get_status", public_key := some "aa", timeout := some 99 }

/-- A self_info dictionary reporting the no-GPS-fix pair (0, 0). -/
def info0 : SelfInfoRaw := { adv_lat := some 0, adv_lon := some 0 }

/-- A self_info dictionary reporting the pair (12.5, -3.25). -/
def infoP : SelfInfoRaw := { adv_lat := some 12.5, adv_lon := some (-3.25) }

/-- A contact dictionary reporting the no-GPS-fix pair (0, 0). -/
def c0 : ContactRaw := { adv_lat := some 0, adv_lon := some 0 }

/-! Claim theorems. -/

/-- C1 counterexample: a sequence of two lines that both parse as JSON
requests, the first a shutdown, yields one response line, not two: the
loop stops after answering the shutdown. -/
theorem loop_response_count_cex :
    (loop devA initState [Line.valid reqShutdown, Line.valid reqPing2]).1.length = 1 ∧
    [Line.valid reqShutdown, Line.valid reqPing2].length = 2 := by decide

/-- C1 (amended): for every sequence of requests none of which is a
shutdown command, the loop emits exactly one response per request, in
request order, and each response's id equals the id field of its
request. -/
theorem loop_request_response_correlation (d : Device) (s : BridgeState) (reqs : List Request)
    (hrun : s.running = true)
    (hns : ∀ r ∈ reqs, r.cmd ≠ some "shutdown")
    (hid : ∀ r ∈ reqs, r.id.isSome = true) :
    (loop d s (reqs.map Line.valid)).1.length = reqs.length ∧
    (loop d s (reqs.map Line.valid)).1.map (fun resp => some resp.id) = reqs.map Request.id := by
  induction reqs generalizing s with
  | nil => simp [loop]
  | cons r rest ih =>
    have hr : r.cmd ≠ some "shutdown" := hns r (List.mem_cons_self r rest)
    have hrun2 : (handle_command d s r).state.running = true := by
      rw [handle_command_running d s r hr]; exact hrun
    have ihx := ih (handle_command d s r).state hrun2
      (fun x hx => hns x (List.mem_cons_of_mem r hx))
      (fun x hx => hid x (List.mem_cons_of_mem r hx))
    have hidr : some ((handle_command d s r).resp.id) = r.id := by
      rw [handle_command_id]
      have hs := hid r (List.mem_cons_self r rest)
      rcases ho : r.id with _ | v
      · rw [ho] at hs; simp at hs
      · rfl
    constructor
    · simp only [List.map_cons, loop, hrun, Bool.true_eq_false, if_false, List.length_cons]
      rw [ihx.1]
    · simp only [List.map_cons, loop, hrun, Bool.true_eq_false, if_false]
      rw [hidr, ihx.2]

/-- C2: a line that fails JSON decoding produces exactly one response,
with id unknown and success false, and the loop then behaves on the rest
of the input exactly as it would have without the malformed line. -/
theorem malformed_line_one_error_response (d : Device) (s : BridgeState) (e : String)
    (rest : List Line) (hrun : s.running = true) :
    (loop d s (Line.malformed e :: rest)).1 =
      { id := "unknown", success := false, error := some ("Invalid JSON: " ++ e) }
        :: (loop d s rest).1 ∧
    (loop d s (Line.malformed e :: rest)).2 = (loop d s rest).2 := by
  constructor <;> simp [loop, hrun, invalidJsonResp]

/-- C2 witness at a concrete malformed line followed by a ping. -/
theorem malformed_line_one_error_response_witness :
    (loop devA initState (Line.malformed "x" :: [Line.valid reqPing2])).1 =
      { id := "unknown", success := false, error := some ("Invalid JSON: " ++ "x") }
        :: (loop devA initState [Line.valid reqPing2]).1 ∧
    (loop devA initState (Line.malformed "x" :: [Line.valid reqPing2])).2 =
      (loop devA initState [Line.valid reqPing2]).2 :=
  malformed_line_one_error_response devA initState "x" [Line.valid reqPing2] rfl

/-- C1 witness at a concrete two-request sequence without shutdown. -/
theorem loop_request_response_correlation_witness :
    (loop devA initState ([reqPing2, reqSelfInfo3].map Line.valid)).1.length =
      [reqPing2, reqSelfInfo3].length ∧
    (loop devA initState ([reqPing2, reqSelfInfo3].map Line.valid)).1.map
      (fun resp => some resp.id) = [reqPing2, reqSelfInfo3].map Request.id :=
  loop_request_response_correlation devA initState [reqPing2, reqSelfInfo3]
    rfl (by decide) (by decide)

/-- The list of command names whose handlers check the connected guard. -/
def guardedCmds : List String :=
  ["get_self_info", "get_contacts", "send_message", "send_advert",
   "login", "get_status", "set_name", "set_radio"]

/-- C3 counterexample: ping is a command other than connect, yet
dispatching it while Disconnected returns success true, not the
NotConnected error. -/
theorem guarded_not_connected_cex :
    initState.connected = false ∧
    (handle_command devA initState reqPing2).resp.success = true := by decide

/-- C3 (amended): every device-operation command (that is, every command
other than connect, disconnect, shutdown, ping and unrecognized names)
dispatched while Disconnected returns the NotConnected error response
and leaves the bridge state unchanged, issuing no device call. -/
theorem guarded_cmds_not_connected (d : Device) (s : BridgeState) (req : Request) (c : String)
    (hc : req.cmd = some c) (hg : c ∈ guardedCmds) (hd : s.connected = false) :
    handle_command d s req =
      { state := s, calls := [],
        resp := { id := req.id.getD "unknown", success := false,
                  error := some "Not connected" } } := by
  unfold handle_command dispatch finishRaw
  rw [hc]
  simp only [Option.getD_some]
  simp only [guardedCmds, List.mem_cons, List.not_mem_nil, or_false] at hg
  rcases hg with h|h|h|h|h|h|h|h
  all_goals subst h
  all_goals simp only [String.reduceEq, reduceIte]
  · simp [cmd_get_self_info, hd, notConnectedResp]
  · simp [cmd_get_contacts, hd, notConnectedResp]
  · simp [cmd_send_message, hd, notConnectedResp]
  · simp [cmd_send_advert, hd, notConnectedResp]
  · simp [cmd_login, hd, notConnectedResp]
  · simp [cmd_get_status, hd, notConnectedResp]
  · simp [cmd_set_name, hd, notConnectedResp]
  · simp [cmd_set_radio, hd, notConnectedResp]

/-- C3 witness: get_self_info while Disconnected. -/
theorem guarded_cmds_not_connected_witness :
    handle_command devA initState reqSelfInfo3 =
      { state := initState, calls := [],
        resp := { id := reqSelfInfo3.id.getD "unknown", success := false,
                  error := some "Not connected" } } :=
  guarded_cmds_not_connected devA initState reqSelfInfo3 "get_self_info"
    rfl (by decide) rfl

/-- The zero filter never emits the coordinate 0. -/
theorem filterZero_ne_zero (x : Option ℚ) : filterZero x ≠ some 0 := by
  unfold filterZero
  split <;> simp_all

/-- The zero filter maps a falsy-or-zero coordinate to absent. -/
theorem filterZero_falsy (x : Option ℚ) (h : x = some 0 ∨ x = none) : filterZero x = none := by
  rcases h with h | h <;> simp [filterZero, h]

/-- Python or of two falsy coordinates is falsy. -/
theorem pyOr_falsy (a b : Option ℚ) (ha : a = some 0 ∨ a = none)
    (hb : b = some 0 ∨ b = none) : pyOr a b = some 0 ∨ pyOr a b = none := by
  rcases ha with h | h <;> rcases hb with h2 | h2 <;> simp [pyOr, h, h2]

/-- Python or keeps a truthy left operand. -/
theorem pyOr_truthy (a b : Option ℚ) (v : ℚ) (hv : v ≠ 0) (ha : a = some v) :
    pyOr a b = some v := by
  simp [pyOr, ha, hv]

/-- The zero filter passes a non-zero coordinate through. -/
theorem filterZero_truthy (v : ℚ) (hv : v ≠ 0) : filterZero (some v) = some v := by
  simp [filterZero, hv]

/-- C4: in both the self-identity serializer and the contact serializer,
a device-reported coordinate pair of exactly (0, 0) is emitted with both
latitude and longitude absent, a non-zero coordinate passes through
unchanged, and an emitted coordinate is never 0. -/
theorem gps_zero_normalized (info : SelfInfoRaw) (c : ContactRaw) (k : String) :
    ((info.adv_lat = some 0 ∨ info.adv_lat = none) →
      (info.latitude = some 0 ∨ info.latitude = none) →
      (serialize_self_info info).latitude = none) ∧
    ((info.adv_lon = some 0 ∨ info.adv_lon = none) →
      (info.longitude = some 0 ∨ info.longitude = none) →
      (serialize_self_info info).longitude = none) ∧
    (∀ v : ℚ, v ≠ 0 → info.adv_lat = some v →
      (serialize_self_info info).latitude = some v) ∧
    (∀ v : ℚ, v ≠ 0 → info.adv_lon = some v →
      (serialize_self_info info).longitude = some v) ∧
    (serialize_self_info info).latitude ≠ some 0 ∧
    (serialize_self_info info).longitude ≠ some 0 ∧
    ((c.adv_lat = some 0 ∨ c.adv_lat = none) →
      (c.latitude = some 0 ∨ c.latitude = none) →
      (c.lat = some 0 ∨ c.lat = none) →
      (serializeContact k c).latitude = none) ∧
    ((c.adv_lon = some 0 ∨ c.adv_lon = none) →
      (c.longitude = some 0 ∨ c.longitude = none) →
      (c.lon = some 0 ∨ c.lon = none) →
      (serializeContact k c).longitude = none) ∧
    (∀ v : ℚ, v ≠ 0 → c.adv_lat = some v →
      (serializeContact k c).latitude = some v) ∧
    (∀ v : ℚ, v ≠ 0 → c.adv_lon = some v →
      (serializeContact k c).longitude = some v) ∧
    (serializeContact k c).latitude ≠ some 0 ∧
    (serializeContact k c).longitude ≠ some 0 := by
  refine ⟨?_, ?_, ?_, ?_, ?_, ?_, ?_, ?_, ?_, ?_, ?_, ?_⟩
  · intro h1 h2
    exact filterZero_falsy _ (pyOr_falsy _ _ h1 h2)
  · intro h1 h2
    exact filterZero_falsy _ (pyOr_falsy _ _ h1 h2)
  · intro v hv ha
    show filterZero (pyOr info.adv_lat info.latitude) = some v
    rw [pyOr_truthy _ _ v hv ha, filterZero_truthy v hv]
  · intro v hv ha
    show filterZero (pyOr info.adv_lon info.longitude) = some v
    rw [pyOr_truthy _ _ v hv ha, filterZero_truthy v hv]
  · exact filterZero_ne_zero _
  · exact filterZero_ne_zero _
  · intro h1 h2 h3
    exact filterZero_falsy _ (pyOr_falsy _ _ (pyOr_falsy _ _ h1 h2) h3)
  · intro h1 h2 h3
    exact filterZero_falsy _ (pyOr_falsy _ _ (pyOr_falsy _ _ h1 h2) h3)
  · intro v hv ha
    show filterZero (pyOr (pyOr c.adv_lat c.latitude) c.lat) = some v
    rw [pyOr_truthy _ _ v hv (pyOr_truthy _ _ v hv ha), filterZero_truthy v hv]
  · intro v hv ha
    show filterZero (pyOr (pyOr c.adv_lon c.longitude) c.lon) = some v
    rw [pyOr_truthy _ _ v hv (pyOr_truthy _ _ v hv ha), filterZero_truthy v hv]
  · exact filterZero_ne_zero _
  · exact filterZero_ne_zero _

/-- C4 witness: the concrete pair (0, 0) is emitted absent for self and
contact records, and the concrete pair (12.5, -3.25) passes through. -/
theorem gps_zero_normalized_witness :
    (serialize_self_info info0).latitude = none ∧
    (serialize_self_info info0).longitude = none ∧
    (serialize_self_info infoP).latitude = some 12.5 ∧
    (serialize_self_info infoP).longitude = some (-3.25) ∧
    (serializeContact "k" c0).latitude = none ∧
    (serializeContact "k" c0).longitude = none :=
  ⟨(gps_zero_normalized info0 c0 "k").1 (Or.inl rfl) (Or.inr rfl),
   (gps_zero_normalized info0 c0 "k").2.1 (Or.inl rfl) (Or.inr rfl),
   (gps_zero_normalized infoP c0 "k").2.2.1 12.5 (by norm_num) rfl,
   (gps_zero_normalized infoP c0 "k").2.2.2.1 (-3.25) (by norm_num) rfl,
   (gps_zero_normalized info0 c0 "k").2.2.2.2.2.2.1 (Or.inl rfl) (Or.inr rfl) (Or.inr rfl),
   (gps_zero_normalized info0 c0 "k").2.2.2.2.2.2.2.1 (Or.inl rfl) (Or.inr rfl) (Or.inr rfl)⟩

/-- C5: when the library is present, the chosen transport is available,
and the device handshake returns nothing, connect fails with the
dedicated no-device-response error (not a raised transport error), and
afterwards the session is Disconnected with both handles cleared. -/
theorem connect_no_device_response (d : Device) (s : BridgeState) (req : Request)
    (hcmd : req.cmd = some "connect")
    (hav : d.meshcore_available = true)
    (htcp : req.type.getD "serial" = "tcp" → d.tcp_available = true)
    (hres : d.connect_res = .ok none) :
    (handle_command d s req).resp =
      { id := req.id.getD "unknown", success := false, error := some msgNoResponse } ∧
    (handle_command d s req).state.connected = false ∧
    (handle_command d s req).state.meshcore = none ∧
    (handle_command d s req).state.connection = none := by
  unfold handle_command dispatch finishRaw
  rw [hcmd]
  simp only [Option.getD_some, String.reduceEq, reduceIte]
  unfold cmd_connect connectType connectWith disconnectState
  by_cases ht : req.type.getD "serial" = "tcp"
  · have htavail := htcp ht
    by_cases hcon : s.connected <;> simp [hav, ht, htavail, hcon, hres]
  · by_cases hcon : s.connected <;> simp [hav, ht, hcon, hres]

/-- C5 witness: a serial connect against a device whose handshake
returns nothing. -/
theorem connect_no_device_response_witness :
    (handle_command devNoResp initState reqConnect7).resp =
      { id := reqConnect7.id.getD "unknown", success := false, error := some msgNoResponse } ∧
    (handle_command devNoResp initState reqConnect7).state.connected = false ∧
    (handle_command devNoResp initState reqConnect7).state.meshcore = none ∧
    (handle_command devNoResp initState reqConnect7).state.connection = none :=
  connect_no_device_response devNoResp initState reqConnect7 rfl rfl (by decide) rfl

/-- handle_command on a disconnect request, in closed form. -/
theorem handle_disconnect_eq (d : Device) (s : BridgeState) (req : Request)
    (hcmd : req.cmd = some "disconnect") :
    handle_command d s req =
      { state := { connection := none, meshcore := none, connected := false,
                   running := s.running },
        calls := if s.meshcore.isSome then [DevCall.disconnect] else [],
        resp := { id := req.id.getD "unknown", success := true,
                  data := some (RespData.connectedFlag false) } } := by
  unfold handle_command dispatch finishRaw cmd_disconnect disconnectState
  rw [hcmd]
  simp only [Option.getD_some, String.reduceEq, reduceIte]

/-- C6: disconnect always succeeds with data connected:false, leaves the
session Disconnected with both handles cleared (running untouched), and
applying disconnect twice gives the same final state and the same
response as applying it once. -/
theorem disconnect_idempotent (d : Device) (s : BridgeState) (req : Request)
    (hcmd : req.cmd = some "disconnect") :
    (handle_command d s req).resp =
      { id := req.id.getD "unknown", success := true,
        data := some (RespData.connectedFlag false) } ∧
    (handle_command d s req).state =
      { connection := none, meshcore := none, connected := false, running := s.running } ∧
    (handle_command d (handle_command d s req).state req).state =
      (handle_command d s req).state ∧
    (handle_command d (handle_command d s req).state req).resp =
      (handle_command d s req).resp := by
  rw [handle_disconnect_eq d s req hcmd]
  rw [handle_disconnect_eq d
    { connection := none, meshcore := none, connected := false, running := s.running } req hcmd]
  simp

/-- C6 witness: disconnect while already Disconnected. -/
theorem disconnect_idempotent_witness :
    (handle_command devA initState reqDisc4).resp =
      { id := reqDisc4.id.getD "unknown", success := true,
        data := some (RespData.connectedFlag false) } ∧
    (handle_command devA initState reqDisc4).state =
      { connection := none, meshcore := none, connected := false,
        running := initState.running } ∧
    (handle_command devA (handle_command devA initState reqDisc4).state reqDisc4).state =
      (handle_command devA initState reqDisc4).state ∧
    (handle_command devA (handle_command devA initState reqDisc4).state reqDisc4).resp =
      (handle_command devA initState reqDisc4).resp :=
  disconnect_idempotent devA initState reqDisc4 rfl

/-- handle_command on a shutdown request: acknowledgement response, and
the running and connected flags are both cleared. -/
theorem handle_shutdown_props (d : Device) (s : BridgeState) (req : Request)
    (hcmd : req.cmd = some "shutdown") :
    (handle_command d s req).resp =
      { id := req.id.getD "unknown", success := true,
        data := some (RespData.shutdownAck true) } ∧
    (handle_command d s req).state.running = false ∧
    (handle_command d s req).state.connected = false := by
  unfold handle_command dispatch finishRaw cmd_shutdown disconnectState
  rw [hcmd]
  simp only [Option.getD_some, String.reduceEq, reduceIte]
  by_cases hcon : s.connected <;> simp [hcon]

/-- C7: when a shutdown request is read, its success acknowledgement is
the last response the loop emits, the loop terminates with the session
Disconnected, and none of the remaining input lines is read. -/
theorem shutdown_stops_loop (d : Device) (s : BridgeState) (req : Request) (rest : List Line)
    (hrun : s.running = true) (hcmd : req.cmd = some "shutdown") :
    (loop d s (Line.valid req :: rest)).1 =
      [{ id := req.id.getD "unknown", success := true,
         data := some (RespData.shutdownAck true) }] ∧
    (loop d s (Line.valid req :: rest)).2.2 = rest ∧
    (loop d s (Line.valid req :: rest)).2.1.running = false ∧
    (loop d s (Line.valid req :: rest)).2.1.connected = false := by
  have hp := handle_shutdown_props d s req hcmd
  have hloop : loop d (handle_command d s req).state rest =
      ([], (handle_command d s req).state, rest) :=
    loop_not_running d _ rest hp.2.1
  simp only [loop, hrun, Bool.true_eq_false, if_false, hloop]
  exact ⟨by rw [hp.1], trivial, hp.2.1, hp.2.2⟩

/-- C7 witness: shutdown followed by an unread ping line. -/
theorem shutdown_stops_loop_witness :
    (loop devA initState [Line.valid reqShutdown, Line.valid reqPing2]).1 =
      [{ id := reqShutdown.id.getD "unknown", success := true,
         data := some (RespData.shutdownAck true) }] ∧
    (loop devA initState [Line.valid reqShutdown, Line.valid reqPing2]).2.2 =
      [Line.valid reqPing2] ∧
    (loop devA initState [Line.valid reqShutdown, Line.valid reqPing2]).2.1.running = false ∧
    (loop devA initState [Line.valid reqShutdown, Line.valid reqPing2]).2.1.connected = false :=
  shutdown_stops_loop devA initState reqShutdown [Line.valid reqPing2] rfl rfl

/-- C8 counterexample: the status request is issued with a wait bound of
10 even when the caller supplies a timeout of 99 in the request; the
caller-supplied value is ignored. -/
theorem get_status_timeout_cex :
    reqStatus99.timeout = some 99 ∧
    (handle_command devA stConn reqStatus99).calls = [DevCall.req_status "aa" 10] ∧
    DevCall.req_status "aa" 10 ≠ DevCall.req_status "aa" 99 := by decide

/-- C8 (amended): while Connected, get_status issues the status request
with a fixed wait bound of 10 time units (any caller-supplied timeout is
ignored); a falsy reply yields the NoStatusResponse error, and a reply
yields battery, uptime, tx power and radio parameters. -/
theorem get_status_fixed_timeout (d : Device) (s : BridgeState) (req : Request)
    (hcmd : req.cmd = some "get_status") (hc : s.connected = true)
    (hm : s.meshcore.isSome = true) :
    (handle_command d s req).calls = [DevCall.req_status (req.public_key.getD "") 10] ∧
    (d.status_res (req.public_key.getD "") 10 = .ok none →
      (handle_command d s req).resp =
        { id := req.id.getD "unknown", success := false,
          error := some "No status received" }) ∧
    (∀ st, d.status_res (req.public_key.getD "") 10 = .ok (some st) →
      (handle_command d s req).resp =
        { id := req.id.getD "unknown", success := true,
          data := some (RespData.status st) }) := by
  have hmn : ¬ s.meshcore = none := by
    intro h
    rw [h] at hm
    simp at hm
  unfold handle_command dispatch finishRaw cmd_get_status
  rw [hcmd]
  simp only [Option.getD_some, String.reduceEq, reduceIte]
  rcases hst : d.status_res (req.public_key.getD "") 10 with e | st2
  · simp [hc, hmn, hst]
  · rcases st2 with _ | st <;> simp [hc, hmn, hst]

/-- C8 witness: concrete get_status while Connected against a device
that never replies. -/
theorem get_status_fixed_timeout_witness :
    (handle_command devA stConn reqStatus99).calls =
      [DevCall.req_status (reqStatus99.public_key.getD "") 10] ∧
    (devA.status_res (reqStatus99.public_key.getD "") 10 = .ok none →
      (handle_command devA stConn reqStatus99).resp =
        { id := reqStatus99.id.getD "unknown", success := false,
          error := some "No status received" }) ∧
    (∀ st, devA.status_res (reqStatus99.public_key.getD "") 10 = .ok (some st) →
      (handle_command devA stConn reqStatus99).resp =
        { id := reqStatus99.id.getD "unknown", success := true,
          data := some (RespData.status st) }) :=
  get_status_fixed_timeout devA stConn reqStatus99 rfl rfl rfl

/-- C9 counterexample: a send_message request whose destination key is
given but empty is sent to the broadcast channel, not as a direct
message to that key. -/
theorem send_message_empty_to_cex :
    reqEmptyTo.«to» = some "" ∧
    (handle_command devA stConn reqEmptyTo).calls = [DevCall.send_chan_msg 0 "hi"] ∧
    (handle_command devA stConn reqEmptyTo).calls ≠ [DevCall.send_msg "" "hi"] := by decide

/-- C9 (amended): while Connected, send_message with a present non-empty
destination key sends a direct message to that key, and with an absent
or empty destination key sends to broadcast channel 0; in both cases the
successful response acknowledges with sent:true. -/
theorem send_message_routing (d : Device) (s : BridgeState) (req : Request)
    (hcmd : req.cmd = some "send_message") (hc : s.connected = true)
    (hm : s.meshcore.isSome = true) :
    (∀ k, req.«to» = some k → k ≠ "" →
      (handle_command d s req).calls = [DevCall.send_msg k (req.text.getD "")] ∧
      (d.send_msg_res = .ok () →
        (handle_command d s req).resp =
          { id := req.id.getD "unknown", success := true,
            data := some (RespData.sent true) })) ∧
    ((req.«to» = none ∨ req.«to» = some "") →
      (handle_command d s req).calls = [DevCall.send_chan_msg 0 (req.text.getD "")] ∧
      (d.send_chan_msg_res = .ok () →
        (handle_command d s req).resp =
          { id := req.id.getD "unknown", success := true,
            data := some (RespData.sent true) })) := by
  have hmn : ¬ s.meshcore = none := by
    intro h
    rw [h] at hm
    simp at hm
  unfold handle_command dispatch finishRaw cmd_send_message sendChan
  rw [hcmd]
  simp only [Option.getD_some, String.reduceEq, reduceIte]
  constructor
  · intro k hk hne
    rw [hk]
    rcases hres : d.send_msg_res with e | u
    · simp [hc, hmn, hne, hres]
    · simp [hc, hmn, hne, hres]
  · intro hk
    rcases hres : d.send_chan_msg_res with e | u
    · rcases hk with hk | hk <;> rw [hk] <;> simp [hc, hmn, hres]
    · rcases hk with hk | hk <;> rw [hk] <;> simp [hc, hmn, hres]

/-- C9 witness: a direct send to a non-empty key and a broadcast send
for an absent key, both concrete. -/
theorem send_message_routing_witness :
    (handle_command devA stConn reqToBob).calls =
      [DevCall.send_msg "bob" (reqToBob.text.getD "")] ∧
    (devA.send_msg_res = .ok () →
      (handle_command devA stConn reqToBob).resp =
        { id := reqToBob.id.getD "unknown", success := true,
          data := some (RespData.sent true) }) :=
  (send_message_routing devA stConn reqToBob rfl rfl rfl).1 "bob" rfl (by decide)

/-- C10: the bridge-state invariant (connected implies both handles
present) is preserved by handle_command for every command, every device
outcome and every starting state satisfying it. -/
theorem handle_command_preserves_inv (d : Device) (s : BridgeState) (req : Request)
    (h : StateInv s) : StateInv (handle_command d s req).state := by
  unfold handle_command
  rw [finishRaw_state]
  exact dispatch_inv d s (req.id.getD "unknown") (req.cmd.getD "") req h

/-- C10 witness: the invariant holds initially and is preserved across a
concrete successful connect. -/
theorem handle_command_preserves_inv_witness :
    StateInv initState ∧ StateInv (handle_command devA initState reqConnect7).state :=
  ⟨by decide, handle_command_preserves_inv devA initState reqConnect7 (by decide)⟩

end Bridge
